import Mathlib

/-!
# Swipe gesture recognition: configuration merge, classification, dispatch

A shallow embedding of `src/index.js` (the `GestureRecognizer` React Native
component) and the properties of its specification.

Modelling conventions.

* JavaScript numbers are rationals. The only non-finite number the code can
  produce from the values modelled here is `NaN`, which arises when a
  threshold that is `undefined` is coerced by `>` or `<`; it is the `none`
  of `Val.toNumber`, and every comparison with it is `false`.
* A configuration property holds a `Val`: `undefined`, a number or a
  boolean. The Flow annotations are erased at run time, so the embedding keeps
  the dynamic values and the coercions of `&&`, `||`, `>` and `<`.
* Objects that are mutated live in a heap and are handled through
  references, because `Object.assign` writes into its target and returns
  that same target.
* Callbacks belong to the caller; invoking one is recorded as a `Call`, and a
  dispatch returns the list of calls it makes, in order.
-/

namespace SwipeGestures

/-! ## JavaScript values and operators -/

/-- The JavaScript values a configuration property is modelled to hold. -/
inductive Val where
  | undefined
  | num (q : ℚ)
  | bool (b : Bool)
  deriving DecidableEq

/-- ToBoolean: which values count as true in `&&`, `||` and `if`. -/
def Val.truthy : Val → Bool
  | .undefined => false
  | .num q => decide (q ≠ 0)
  | .bool b => b

/-- ToNumber, with `none` standing for `NaN`. -/
def Val.toNumber : Val → Option ℚ
  | .undefined => none
  | .num q => some q
  | .bool b => some (if b then 1 else 0)

/-- The comparison `a > b` of a number with an arbitrary value. -/
def jsGt (a : ℚ) (b : Val) : Bool :=
  match b.toNumber with
  | none => false
  | some t => decide (a > t)

/-- The comparison `a < b` of a number with an arbitrary value. -/
def jsLt (a : ℚ) (b : Val) : Bool :=
  match b.toNumber with
  | none => false
  | some t => decide (a < t)

/-- The operator `a && b`: the left operand when it is falsy, else the right. -/
def jsAnd (a b : Val) : Val := if a.truthy then b else a

/-- The operator `a || b`: the left operand when it is truthy, else the right. -/
def jsOr (a b : Val) : Val := if a.truthy then a else b

/-! ## Data model -/

/-- The four values of `swipeDirections`; `null` is `none` of the option. -/
inductive SwipeDirectionT where
  | SWIPE_UP
  | SWIPE_DOWN
  | SWIPE_LEFT
  | SWIPE_RIGHT
  deriving DecidableEq

/-- The run-time shape of a configuration object with its six properties. -/
structure ConfigT where
  velocityThreshold : Val
  directionalOffsetThreshold : Val
  detectSwipeUp : Val
  detectSwipeDown : Val
  detectSwipeLeft : Val
  detectSwipeRight : Val
  deriving DecidableEq

/-- The object passed as `props.config`: each recognised key is either not an
own property (`none`) or an own property with a value (`some v`, where `v`
may be `undefined`). -/
structure ConfigOverrides where
  velocityThreshold : Option Val
  directionalOffsetThreshold : Option Val
  detectSwipeUp : Option Val
  detectSwipeDown : Option Val
  detectSwipeLeft : Option Val
  detectSwipeRight : Option Val
  deriving DecidableEq

/-- The fields of a pan responder gesture state that the component reads. -/
structure GestureState where
  dx : ℚ
  dy : ℚ
  vx : ℚ
  vy : ℚ
  deriving DecidableEq

/-- A touch event, reduced to `evt.nativeEvent.touches.length`. -/
structure ReactNativeEventT where
  touchesLength : Nat
  deriving DecidableEq

/-- The props of the component: for each callback whether it is registered, and
the optional `config`. -/
structure PropsT where
  onSwipe : Bool
  onSwipeUp : Bool
  onSwipeDown : Bool
  onSwipeLeft : Bool
  onSwipeRight : Bool
  config : Option ConfigOverrides
  deriving DecidableEq

/-- One invocation of a caller callback, with its arguments. -/
inductive Call where
  | onSwipe (d : SwipeDirectionT) (g : GestureState)
  | onSwipeUp (g : GestureState)
  | onSwipeDown (g : GestureState)
  | onSwipeLeft (g : GestureState)
  | onSwipeRight (g : GestureState)
  deriving DecidableEq

/-! ## Module state and configuration resolution -/

/-- A reference to a configuration object. -/
abbrev Ref := Nat

/-- The heap of configuration objects. -/
abbrev Heap := Ref → Option ConfigT

/-- The module-level binding `const defaultSwipeConfig`: a reference. -/
def defaultSwipeConfig : Ref := 0

/-- The object literal that `defaultSwipeConfig` is initialised with. -/
def defaultSwipeConfigLiteral : ConfigT where
  velocityThreshold := .num 0.3
  directionalOffsetThreshold := .num 80
  detectSwipeUp := .bool true
  detectSwipeDown := .bool true
  detectSwipeLeft := .bool true
  detectSwipeRight := .bool true

/-- The heap right after the module is loaded. -/
def initialHeap : Heap := fun r =>
  if r = defaultSwipeConfig then some defaultSwipeConfigLiteral else none

/-- What `Object.assign` does to one property of the target: an own property of
the source is written over it, whatever its value. -/
def assignProperty (target : Val) (source : Option Val) : Val :=
  match source with
  | none => target
  | some v => v

/-- The target object after every own property of the source is copied into it. -/
def ConfigT.assignFrom (t : ConfigT) (s : ConfigOverrides) : ConfigT where
  velocityThreshold := assignProperty t.velocityThreshold s.velocityThreshold
  directionalOffsetThreshold :=
    assignProperty t.directionalOffsetThreshold s.directionalOffsetThreshold
  detectSwipeUp := assignProperty t.detectSwipeUp s.detectSwipeUp
  detectSwipeDown := assignProperty t.detectSwipeDown s.detectSwipeDown
  detectSwipeLeft := assignProperty t.detectSwipeLeft s.detectSwipeLeft
  detectSwipeRight := assignProperty t.detectSwipeRight s.detectSwipeRight

/-- The call `Object.assign(target, source)`: writes the own properties of the
source into the target object in place and returns the target reference; a
source that is `undefined` is skipped. -/
def Object.assign (h : Heap) (target : Ref) (source : Option ConfigOverrides) :
    Heap × Ref :=
  match source, h target with
  | some s, some t => (Function.update h target (some (t.assignFrom s)), target)
  | _, _ => (h, target)

/-- A component instance: its props and the reference in `this.swipeConfig`. -/
structure GestureRecognizer where
  props : PropsT
  swipeConfig : Ref
  deriving DecidableEq

/-- The constructor: `this.swipeConfig = Object.assign(defaultSwipeConfig, props.config)`. -/
def GestureRecognizer.constructor (h : Heap) (props : PropsT) :
    Heap × GestureRecognizer :=
  let r := Object.assign h defaultSwipeConfig props.config
  (r.1, { props := props, swipeConfig := r.2 })

/-- The method `componentWillReceiveProps(props)`: the same assignment again. -/
def GestureRecognizer.componentWillReceiveProps (h : Heap) (self : GestureRecognizer)
    (props : PropsT) : Heap × GestureRecognizer :=
  let r := Object.assign h defaultSwipeConfig props.config
  (r.1, { self with swipeConfig := r.2 })

/-- The effective configuration of a component: the object that
`this.swipeConfig` refers to, as the heap holds it now. -/
def GestureRecognizer.effectiveConfig (h : Heap) (self : GestureRecognizer) :
    Option ConfigT :=
  h self.swipeConfig

/-! ## Classification -/

/-- The function `isValidSwipe`. -/
def isValidSwipe (velocity : ℚ) (velocityThreshold : Val) (directionalOffset : ℚ)
    (directionalOffsetThreshold : Val) : Bool :=
  jsGt |velocity| velocityThreshold && jsLt |directionalOffset| directionalOffsetThreshold

/-- The function `gestureIsClick`. -/
def gestureIsClick (gestureState : GestureState) : Bool :=
  decide (|gestureState.dx| < 5) && decide (|gestureState.dy| < 5)

/-- The method `_isValidHorizontalSwipe`; `swipeConfig` is the object that
`this.swipeConfig` refers to. -/
def _isValidHorizontalSwipe (swipeConfig : ConfigT) (gestureState : GestureState) : Bool :=
  isValidSwipe gestureState.vx swipeConfig.velocityThreshold gestureState.dy
    swipeConfig.directionalOffsetThreshold

/-- The method `_isValidVerticalSwipe`. -/
def _isValidVerticalSwipe (swipeConfig : ConfigT) (gestureState : GestureState) : Bool :=
  isValidSwipe gestureState.vy swipeConfig.velocityThreshold gestureState.dx
    swipeConfig.directionalOffsetThreshold

/-- The method `_getSwipeDirection`. -/
def _getSwipeDirection (swipeConfig : ConfigT) (gestureState : GestureState) :
    Option SwipeDirectionT :=
  if _isValidHorizontalSwipe swipeConfig gestureState then
    some (if gestureState.dx > 0 then .SWIPE_RIGHT else .SWIPE_LEFT)
  else if _isValidVerticalSwipe swipeConfig gestureState then
    some (if gestureState.dy > 0 then .SWIPE_DOWN else .SWIPE_UP)
  else
    none

/-- The method `_validateSwipe`; its value is that of the `||` chain, which is
a boolean or the falsy value of the last flag. -/
def _validateSwipe (swipeConfig : ConfigT) (gestureState : GestureState) : Val :=
  let swipeDirection := _getSwipeDirection swipeConfig gestureState
  jsOr
    (jsOr
      (jsOr
        (jsAnd swipeConfig.detectSwipeUp (.bool (decide (swipeDirection = some .SWIPE_UP))))
        (jsAnd swipeConfig.detectSwipeDown (.bool (decide (swipeDirection = some .SWIPE_DOWN)))))
      (jsAnd swipeConfig.detectSwipeLeft (.bool (decide (swipeDirection = some .SWIPE_LEFT)))))
    (jsAnd swipeConfig.detectSwipeRight (.bool (decide (swipeDirection = some .SWIPE_RIGHT))))

/-- The method `_handleShouldSetPanResponder`. -/
def _handleShouldSetPanResponder (swipeConfig : ConfigT) (evt : ReactNativeEventT)
    (gestureState : GestureState) : Val :=
  jsAnd
    (jsAnd (.bool (decide (evt.touchesLength = 1))) (.bool (!gestureIsClick gestureState)))
    (_validateSwipe swipeConfig gestureState)

/-! ## Dispatch -/

/-- The method `_triggerSwipeHandlers`: the calls it makes, in order. -/
def _triggerSwipeHandlers (props : PropsT) (swipeDirection : Option SwipeDirectionT)
    (gestureState : GestureState) : List Call :=
  (match swipeDirection with
    | some d => if props.onSwipe then [Call.onSwipe d gestureState] else []
    | none => []) ++
  (match swipeDirection with
    | some .SWIPE_LEFT => if props.onSwipeLeft then [Call.onSwipeLeft gestureState] else []
    | some .SWIPE_RIGHT => if props.onSwipeRight then [Call.onSwipeRight gestureState] else []
    | some .SWIPE_UP => if props.onSwipeUp then [Call.onSwipeUp gestureState] else []
    | some .SWIPE_DOWN => if props.onSwipeDown then [Call.onSwipeDown gestureState] else []
    | none => [])

/-- The method `_handlePanResponderEnd`, bound to release and to termination. -/
def _handlePanResponderEnd (props : PropsT) (swipeConfig : ConfigT)
    (_evt : ReactNativeEventT) (gestureState : GestureState) : List Call :=
  let swipeDirection := _getSwipeDirection swipeConfig gestureState
  _triggerSwipeHandlers props swipeDirection gestureState

/-! ## Helpers for stating the properties -/

/-- The object `{}`: none of the six keys is an own property. -/
def ConfigOverrides.empty : ConfigOverrides where
  velocityThreshold := none
  directionalOffsetThreshold := none
  detectSwipeUp := none
  detectSwipeDown := none
  detectSwipeLeft := none
  detectSwipeRight := none

/-- Props that register no callback and carry the given `config`. -/
def PropsT.ofConfig (config : Option ConfigOverrides) : PropsT where
  onSwipe := false
  onSwipeUp := false
  onSwipeDown := false
  onSwipeLeft := false
  onSwipeRight := false
  config := config

/-- The effective configuration of a component that is constructed on heap `h`
with `config = o1` and then receives props with `config = o2`. -/
def resolveThenResolve (h : Heap) (o1 o2 : Option ConfigOverrides) : Option ConfigT :=
  GestureRecognizer.effectiveConfig
    (GestureRecognizer.componentWillReceiveProps
      (GestureRecognizer.constructor h (PropsT.ofConfig o1)).1
      (GestureRecognizer.constructor h (PropsT.ofConfig o1)).2 (PropsT.ofConfig o2)).1
    (GestureRecognizer.componentWillReceiveProps
      (GestureRecognizer.constructor h (PropsT.ofConfig o1)).1
      (GestureRecognizer.constructor h (PropsT.ofConfig o1)).2 (PropsT.ofConfig o2)).2

/-- The flag that `_validateSwipe` pairs with each direction. -/
def ConfigT.detectFlag (c : ConfigT) : SwipeDirectionT → Val
  | .SWIPE_UP => c.detectSwipeUp
  | .SWIPE_DOWN => c.detectSwipeDown
  | .SWIPE_LEFT => c.detectSwipeLeft
  | .SWIPE_RIGHT => c.detectSwipeRight

/-- The resolution as the specification words it, for one key: the override
wins if it is present and not `undefined`, otherwise the default wins. -/
def specResolveKey (default : Val) (override : Option Val) : Val :=
  match override with
  | some v => if v = Val.undefined then default else v
  | none => default

/-- The resolution as the specification words it, for the six keys, from the
documented defaults 0.3, 80, true, true, true, true. -/
def specResolve (o : ConfigOverrides) : ConfigT where
  velocityThreshold := specResolveKey (.num 0.3) o.velocityThreshold
  directionalOffsetThreshold := specResolveKey (.num 80) o.directionalOffsetThreshold
  detectSwipeUp := specResolveKey (.bool true) o.detectSwipeUp
  detectSwipeDown := specResolveKey (.bool true) o.detectSwipeDown
  detectSwipeLeft := specResolveKey (.bool true) o.detectSwipeLeft
  detectSwipeRight := specResolveKey (.bool true) o.detectSwipeRight

/-- Whether the callback specific to a direction is registered in the props,
with the pairing of the `switch` in `_triggerSwipeHandlers`. -/
def PropsT.specific (p : PropsT) : SwipeDirectionT → Bool
  | .SWIPE_UP => p.onSwipeUp
  | .SWIPE_DOWN => p.onSwipeDown
  | .SWIPE_LEFT => p.onSwipeLeft
  | .SWIPE_RIGHT => p.onSwipeRight

/-- The invocation of the callback specific to a direction, on a gesture state. -/
def Call.specific : SwipeDirectionT → GestureState → Call
  | .SWIPE_UP, g => .onSwipeUp g
  | .SWIPE_DOWN, g => .onSwipeDown g
  | .SWIPE_LEFT, g => .onSwipeLeft g
  | .SWIPE_RIGHT, g => .onSwipeRight g

/-- Whether a value is a boolean. -/
def Val.isBool : Val → Bool
  | .bool _ => true
  | _ => false

/-- Whether the four `detectSwipe*` properties of a configuration are booleans,
as the type `ConfigT` of the source declares them. -/
def ConfigT.booleanFlags (c : ConfigT) : Bool :=
  c.detectSwipeUp.isBool && c.detectSwipeDown.isBool && c.detectSwipeLeft.isBool &&
    c.detectSwipeRight.isBool

/-! ## Auxiliary facts -/


theorem isValidSwipe_num (v vt d ot : ℚ) :
    isValidSwipe v (.num vt) d (.num ot) = true ↔ vt < |v| ∧ |d| < ot := by
  simp [isValidSwipe, jsGt, jsLt, Val.toNumber]

theorem truthy_bool (b : Bool) : (Val.bool b).truthy = b := rfl

theorem truthy_jsAnd (a b : Val) : (jsAnd a b).truthy = (a.truthy && b.truthy) := by
  unfold jsAnd
  cases h : a.truthy <;> simp [h]

theorem truthy_jsOr (a b : Val) : (jsOr a b).truthy = (a.truthy || b.truthy) := by
  unfold jsOr
  cases h : a.truthy <;> simp [h]

theorem trueOrFalsy_jsAnd_bool (f : Val) (b : Bool) :
    jsAnd f (.bool b) = .bool true ∨ (jsAnd f (.bool b)).truthy = false := by
  unfold jsAnd
  cases h : f.truthy <;> cases b <;> simp [h, truthy_bool]

theorem trueOrFalsy_jsOr {a b : Val} (ha : a = .bool true ∨ a.truthy = false)
    (hb : b = .bool true ∨ b.truthy = false) :
    jsOr a b = .bool true ∨ (jsOr a b).truthy = false := by
  unfold jsOr
  cases h : a.truthy
  · simpa [h] using hb
  · simpa [h] using ha

theorem eq_true_iff_truthy {v : Val} (hv : v = .bool true ∨ v.truthy = false) :
    v = .bool true ↔ v.truthy = true := by
  constructor
  · intro h
    simp [h, truthy_bool]
  · intro h
    rcases hv with hv | hv
    · exact hv
    · rw [hv] at h
      exact absurd h (by simp)

theorem trueOrFalsy_validateSwipe (cfg : ConfigT) (g : GestureState) :
    _validateSwipe cfg g = .bool true ∨ (_validateSwipe cfg g).truthy = false := by
  unfold _validateSwipe
  exact trueOrFalsy_jsOr (trueOrFalsy_jsOr (trueOrFalsy_jsOr (trueOrFalsy_jsAnd_bool _ _)
    (trueOrFalsy_jsAnd_bool _ _)) (trueOrFalsy_jsAnd_bool _ _)) (trueOrFalsy_jsAnd_bool _ _)

theorem truthy_validateSwipe (cfg : ConfigT) (g : GestureState) :
    (_validateSwipe cfg g).truthy = true ↔
      ∃ d, _getSwipeDirection cfg g = some d ∧ (cfg.detectFlag d).truthy = true := by
  unfold _validateSwipe
  simp only [truthy_jsOr, truthy_jsAnd, truthy_bool, Bool.or_eq_true, Bool.and_eq_true,
    decide_eq_true_eq]
  constructor
  · rintro (((⟨hf, hd⟩ | ⟨hf, hd⟩) | ⟨hf, hd⟩) | ⟨hf, hd⟩)
    · exact ⟨_, hd, hf⟩
    · exact ⟨_, hd, hf⟩
    · exact ⟨_, hd, hf⟩
    · exact ⟨_, hd, hf⟩
  · rintro ⟨d, hd, hf⟩
    cases d
    · exact Or.inl (Or.inl (Or.inl ⟨hf, hd⟩))
    · exact Or.inl (Or.inl (Or.inr ⟨hf, hd⟩))
    · exact Or.inl (Or.inr ⟨hf, hd⟩)
    · exact Or.inr ⟨hf, hd⟩


theorem isValidHorizontalSwipe_iff (cfg : ConfigT) (g : GestureState) (vt ot : ℚ)
    (hv : cfg.velocityThreshold = .num vt) (ho : cfg.directionalOffsetThreshold = .num ot) :
    _isValidHorizontalSwipe cfg g = true ↔ vt < |g.vx| ∧ |g.dy| < ot := by
  unfold _isValidHorizontalSwipe
  rw [hv, ho]
  exact isValidSwipe_num _ _ _ _

theorem isValidVerticalSwipe_iff (cfg : ConfigT) (g : GestureState) (vt ot : ℚ)
    (hv : cfg.velocityThreshold = .num vt) (ho : cfg.directionalOffsetThreshold = .num ot) :
    _isValidVerticalSwipe cfg g = true ↔ vt < |g.vy| ∧ |g.dx| < ot := by
  unfold _isValidVerticalSwipe
  rw [hv, ho]
  exact isValidSwipe_num _ _ _ _

theorem getSwipeDirection_of_horizontal (cfg : ConfigT) (g : GestureState)
    (h : _isValidHorizontalSwipe cfg g = true) :
    _getSwipeDirection cfg g =
      some (if g.dx > 0 then SwipeDirectionT.SWIPE_RIGHT else SwipeDirectionT.SWIPE_LEFT) := by
  simp [_getSwipeDirection, h]

theorem getSwipeDirection_of_vertical (cfg : ConfigT) (g : GestureState)
    (hh : _isValidHorizontalSwipe cfg g = false) (h : _isValidVerticalSwipe cfg g = true) :
    _getSwipeDirection cfg g =
      some (if g.dy > 0 then SwipeDirectionT.SWIPE_DOWN else SwipeDirectionT.SWIPE_UP) := by
  simp [_getSwipeDirection, hh, h]

theorem getSwipeDirection_of_neither (cfg : ConfigT) (g : GestureState)
    (hh : _isValidHorizontalSwipe cfg g = false) (h : _isValidVerticalSwipe cfg g = false) :
    _getSwipeDirection cfg g = none := by
  simp [_getSwipeDirection, hh, h]

theorem initialHeap_default : initialHeap defaultSwipeConfig = some defaultSwipeConfigLiteral := by
  simp [initialHeap]

/-! ## Configuration resolution -/

/-- C1, the code at the failing input: a component constructed with
`{velocityThreshold: 0.5}` that then receives the empty override map `{}` holds
`velocityThreshold = 0.5`, the previous override, and not the default `0.3`;
the first resolution has overwritten the module default itself. -/
theorem resolve_then_empty_keeps_previous_override :
    resolveThenResolve initialHeap
        (some { ConfigOverrides.empty with velocityThreshold := some (.num 0.5) })
        (some ConfigOverrides.empty) =
      some { defaultSwipeConfigLiteral with velocityThreshold := .num 0.5 } ∧
    resolveThenResolve initialHeap
        (some { ConfigOverrides.empty with velocityThreshold := some (.num 0.5) })
        (some ConfigOverrides.empty) ≠ some defaultSwipeConfigLiteral := by
  have h : resolveThenResolve initialHeap
        (some { ConfigOverrides.empty with velocityThreshold := some (.num 0.5) })
        (some ConfigOverrides.empty) =
      some { defaultSwipeConfigLiteral with velocityThreshold := .num 0.5 } := rfl
  refine ⟨h, ?_⟩
  rw [h]
  simp only [defaultSwipeConfigLiteral, ne_eq, Option.some.injEq, ConfigT.mk.injEq,
    Val.num.injEq, and_true]
  norm_num

/-- C2, counterexample: with the override map `{velocityThreshold: undefined}`
the first resolution yields `velocityThreshold = undefined`, whereas the
resolution worded in the specification keeps the default `0.3`. -/
theorem undefined_override_replaces_default :
    (GestureRecognizer.constructor initialHeap
        (PropsT.ofConfig
          (some { ConfigOverrides.empty with velocityThreshold := some .undefined }))).2.effectiveConfig
      (GestureRecognizer.constructor initialHeap
        (PropsT.ofConfig
          (some { ConfigOverrides.empty with velocityThreshold := some .undefined }))).1 =
      some { defaultSwipeConfigLiteral with velocityThreshold := .undefined } ∧
    (GestureRecognizer.constructor initialHeap
        (PropsT.ofConfig
          (some { ConfigOverrides.empty with velocityThreshold := some .undefined }))).2.effectiveConfig
      (GestureRecognizer.constructor initialHeap
        (PropsT.ofConfig
          (some { ConfigOverrides.empty with velocityThreshold := some .undefined }))).1 ≠
      some (specResolve { ConfigOverrides.empty with velocityThreshold := some .undefined }) := by
  refine ⟨rfl, ?_⟩
  intro h
  have h2 := congrArg (Option.map ConfigT.velocityThreshold) h
  exact absurd h2 (by decide)

/-- C2, amended: for every props object, the effective configuration the
constructor produces on the freshly loaded module has, for each of the six
keys, the override value when the key is an own property of `props.config`
(whatever that value is, `undefined` included) and otherwise the default
`0.3`, `80`, `true`, `true`, `true`, `true`. -/
theorem constructor_effectiveConfig (props : PropsT) :
    (GestureRecognizer.constructor initialHeap props).2.effectiveConfig
        (GestureRecognizer.constructor initialHeap props).1 =
      some
        { velocityThreshold :=
            (props.config.bind ConfigOverrides.velocityThreshold).getD (.num 0.3)
          directionalOffsetThreshold :=
            (props.config.bind ConfigOverrides.directionalOffsetThreshold).getD (.num 80)
          detectSwipeUp := (props.config.bind ConfigOverrides.detectSwipeUp).getD (.bool true)
          detectSwipeDown := (props.config.bind ConfigOverrides.detectSwipeDown).getD (.bool true)
          detectSwipeLeft := (props.config.bind ConfigOverrides.detectSwipeLeft).getD (.bool true)
          detectSwipeRight :=
            (props.config.bind ConfigOverrides.detectSwipeRight).getD (.bool true) } := by
  rcases props with ⟨a, b, c, d, e, cfg⟩
  cases cfg with
  | none =>
    simp [GestureRecognizer.constructor, GestureRecognizer.effectiveConfig, Object.assign,
      initialHeap, defaultSwipeConfigLiteral]
  | some o =>
    rcases o with ⟨o1, o2, o3, o4, o5, o6⟩
    simp only [GestureRecognizer.constructor, GestureRecognizer.effectiveConfig, Object.assign,
      initialHeap_default, Function.update_same, Option.some_bind, ConfigT.assignFrom,
      defaultSwipeConfigLiteral, Option.some.injEq, ConfigT.mk.injEq]
    refine ⟨?_, ?_, ?_, ?_, ?_, ?_⟩
    · cases o1 <;> rfl
    · cases o2 <;> rfl
    · cases o3 <;> rfl
    · cases o4 <;> rfl
    · cases o5 <;> rfl
    · cases o6 <;> rfl

/-- C4, the code at the failing input: component A is constructed without
overrides and holds the defaults; constructing a second component B with
`{velocityThreshold: 0.5}` rewrites the module default object, and the
effective configuration of A, which is that same object, now has
`velocityThreshold = 0.5`. -/
theorem constructor_rewrites_default_and_other_components :
    (GestureRecognizer.constructor initialHeap (PropsT.ofConfig none)).2.effectiveConfig
        (GestureRecognizer.constructor initialHeap (PropsT.ofConfig none)).1 =
      some defaultSwipeConfigLiteral ∧
    (GestureRecognizer.constructor initialHeap (PropsT.ofConfig none)).2.effectiveConfig
        (GestureRecognizer.constructor
          (GestureRecognizer.constructor initialHeap (PropsT.ofConfig none)).1
          (PropsT.ofConfig
            (some { ConfigOverrides.empty with velocityThreshold := some (.num 0.5) }))).1 =
      some { defaultSwipeConfigLiteral with velocityThreshold := .num 0.5 } ∧
    (GestureRecognizer.constructor
          (GestureRecognizer.constructor initialHeap (PropsT.ofConfig none)).1
          (PropsT.ofConfig
            (some { ConfigOverrides.empty with velocityThreshold := some (.num 0.5) }))).1
        defaultSwipeConfig =
      some { defaultSwipeConfigLiteral with velocityThreshold := .num 0.5 } ∧
    (GestureRecognizer.constructor initialHeap (PropsT.ofConfig none)).2.swipeConfig =
      defaultSwipeConfig :=
  ⟨rfl, rfl, rfl, rfl⟩

/-! ## Classification and the should-claim check -/

/-- C3, the code at the failing input: with `vx = 1`, `vy = 1`, `dx = 10`,
`dy = 10`, thresholds `0.3` and `80` and `detectSwipeRight = false`, the
release handler classifies `SWIPE_RIGHT` and invokes `onSwipe` and
`onSwipeRight`, although `_validateSwipe` rejects that same gesture. -/
theorem handlePanResponderEnd_fires_disabled_direction :
    _getSwipeDirection { defaultSwipeConfigLiteral with detectSwipeRight := .bool false }
        { dx := 10, dy := 10, vx := 1, vy := 1 } = some .SWIPE_RIGHT ∧
    _handlePanResponderEnd
        { onSwipe := true, onSwipeUp := true, onSwipeDown := true, onSwipeLeft := true,
          onSwipeRight := true, config := none }
        { defaultSwipeConfigLiteral with detectSwipeRight := .bool false }
        { touchesLength := 0 } { dx := 10, dy := 10, vx := 1, vy := 1 } =
      [Call.onSwipe .SWIPE_RIGHT { dx := 10, dy := 10, vx := 1, vy := 1 },
        Call.onSwipeRight { dx := 10, dy := 10, vx := 1, vy := 1 }] ∧
    _validateSwipe { defaultSwipeConfigLiteral with detectSwipeRight := .bool false }
        { dx := 10, dy := 10, vx := 1, vy := 1 } = .bool false := by
  have hd : _getSwipeDirection
      { defaultSwipeConfigLiteral with detectSwipeRight := .bool false }
      { dx := 10, dy := 10, vx := 1, vy := 1 } = some .SWIPE_RIGHT := by
    rw [getSwipeDirection_of_horizontal]
    · norm_num
    · rw [isValidHorizontalSwipe_iff _ _ 0.3 80 rfl rfl]
      norm_num [lt_abs, abs_lt]
  refine ⟨hd, ?_, ?_⟩
  · simp [_handlePanResponderEnd, hd, _triggerSwipeHandlers]
  · simp only [_validateSwipe, hd]
    rfl

/-- C5: when both the horizontal and the vertical test succeed, the
classification is the horizontal one, `SWIPE_RIGHT` if `dx > 0` and
`SWIPE_LEFT` otherwise, and never `SWIPE_UP` or `SWIPE_DOWN`. -/
theorem getSwipeDirection_horizontal_first (cfg : ConfigT) (g : GestureState) (vt ot : ℚ)
    (hv : cfg.velocityThreshold = .num vt) (ho : cfg.directionalOffsetThreshold = .num ot)
    (hH : |g.vx| > vt ∧ |g.dy| < ot) (hV : |g.vy| > vt ∧ |g.dx| < ot) :
    _isValidHorizontalSwipe cfg g = true ∧ _isValidVerticalSwipe cfg g = true ∧
    _getSwipeDirection cfg g =
      some (if g.dx > 0 then SwipeDirectionT.SWIPE_RIGHT else SwipeDirectionT.SWIPE_LEFT) ∧
    _getSwipeDirection cfg g ≠ some .SWIPE_UP ∧
    _getSwipeDirection cfg g ≠ some .SWIPE_DOWN := by
  have h1 : _isValidHorizontalSwipe cfg g = true :=
    (isValidHorizontalSwipe_iff cfg g vt ot hv ho).2 hH
  have h2 : _isValidVerticalSwipe cfg g = true :=
    (isValidVerticalSwipe_iff cfg g vt ot hv ho).2 hV
  have h3 := getSwipeDirection_of_horizontal cfg g h1
  refine ⟨h1, h2, h3, ?_, ?_⟩
  · rw [h3]
    split <;> simp
  · rw [h3]
    split <;> simp

/-- C5, witness of the text: `vx = 1`, `vy = 1`, `dx = 10`, `dy = 10` with
thresholds `0.3` and `80` is classified `SWIPE_RIGHT`. -/
theorem getSwipeDirection_horizontal_first_witness :
    _getSwipeDirection defaultSwipeConfigLiteral { dx := 10, dy := 10, vx := 1, vy := 1 } =
      some .SWIPE_RIGHT := by
  have h := (getSwipeDirection_horizontal_first defaultSwipeConfigLiteral
    { dx := 10, dy := 10, vx := 1, vy := 1 } 0.3 80 rfl rfl
    (by norm_num [lt_abs, abs_lt]) (by norm_num [lt_abs, abs_lt])).2.2.1
  rw [h]
  norm_num

/-- C6: the classification is horizontal (`SWIPE_LEFT` or `SWIPE_RIGHT`)
exactly when `|vx| > velocityThreshold` and `|dy| < directionalOffsetThreshold`,
both strict, and then it is `SWIPE_RIGHT` exactly when `dx > 0`, so that
`dx = 0` gives `SWIPE_LEFT`. -/
theorem getSwipeDirection_horizontal_iff (cfg : ConfigT) (g : GestureState) (vt ot : ℚ)
    (hv : cfg.velocityThreshold = .num vt) (ho : cfg.directionalOffsetThreshold = .num ot) :
    ((_getSwipeDirection cfg g = some .SWIPE_LEFT ∨
        _getSwipeDirection cfg g = some .SWIPE_RIGHT) ↔
      (|g.vx| > vt ∧ |g.dy| < ot)) ∧
    ((|g.vx| > vt ∧ |g.dy| < ot) →
      ((_getSwipeDirection cfg g = some .SWIPE_RIGHT ↔ g.dx > 0) ∧
        (_getSwipeDirection cfg g = some .SWIPE_LEFT ↔ ¬ g.dx > 0))) := by
  have hiff := isValidHorizontalSwipe_iff cfg g vt ot hv ho
  constructor
  · constructor
    · intro h
      cases hh : _isValidHorizontalSwipe cfg g with
      | true => exact hiff.1 hh
      | false =>
        exfalso
        cases hvv : _isValidVerticalSwipe cfg g with
        | true =>
          rw [getSwipeDirection_of_vertical cfg g hh hvv] at h
          split at h <;> simp at h
        | false =>
          rw [getSwipeDirection_of_neither cfg g hh hvv] at h
          simp at h
    · intro h
      rw [getSwipeDirection_of_horizontal cfg g (hiff.2 h)]
      split <;> simp
  · intro h
    rw [getSwipeDirection_of_horizontal cfg g (hiff.2 h)]
    by_cases hdx : g.dx > 0 <;> simp [hdx]

/-- C6, witness of the text: `dx = -20`, `dy = 2`, `vx = -0.8`, `vy = 0.05`
with the default configuration is classified `SWIPE_LEFT`. -/
theorem getSwipeDirection_horizontal_iff_witness :
    _getSwipeDirection defaultSwipeConfigLiteral
      { dx := -20, dy := 2, vx := -0.8, vy := 0.05 } = some .SWIPE_LEFT := by
  have h := getSwipeDirection_horizontal_iff defaultSwipeConfigLiteral
    { dx := -20, dy := 2, vx := -0.8, vy := 0.05 } 0.3 80 rfl rfl
  exact (h.2 (by norm_num [lt_abs, abs_lt])).2.2 (by norm_num)

/-- C7: the classification is vertical (`SWIPE_UP` or `SWIPE_DOWN`) exactly
when the horizontal test fails and `|vy| > velocityThreshold` and
`|dx| < directionalOffsetThreshold`, both strict, and then it is `SWIPE_DOWN`
exactly when `dy > 0`, so that `dy = 0` gives `SWIPE_UP`. -/
theorem getSwipeDirection_vertical_iff (cfg : ConfigT) (g : GestureState) (vt ot : ℚ)
    (hv : cfg.velocityThreshold = .num vt) (ho : cfg.directionalOffsetThreshold = .num ot) :
    ((_getSwipeDirection cfg g = some .SWIPE_UP ∨
        _getSwipeDirection cfg g = some .SWIPE_DOWN) ↔
      (¬ (|g.vx| > vt ∧ |g.dy| < ot) ∧ |g.vy| > vt ∧ |g.dx| < ot)) ∧
    ((¬ (|g.vx| > vt ∧ |g.dy| < ot) ∧ |g.vy| > vt ∧ |g.dx| < ot) →
      ((_getSwipeDirection cfg g = some .SWIPE_DOWN ↔ g.dy > 0) ∧
        (_getSwipeDirection cfg g = some .SWIPE_UP ↔ ¬ g.dy > 0))) := by
  have hH := isValidHorizontalSwipe_iff cfg g vt ot hv ho
  have hV := isValidVerticalSwipe_iff cfg g vt ot hv ho
  have key : (¬ (|g.vx| > vt ∧ |g.dy| < ot) ∧ |g.vy| > vt ∧ |g.dx| < ot) →
      _getSwipeDirection cfg g =
        some (if g.dy > 0 then SwipeDirectionT.SWIPE_DOWN else SwipeDirectionT.SWIPE_UP) := by
    rintro ⟨hn, hy⟩
    apply getSwipeDirection_of_vertical cfg g _ (hV.2 hy)
    cases hh : _isValidHorizontalSwipe cfg g with
    | true => exact absurd (hH.1 hh) hn
    | false => rfl
  constructor
  · constructor
    · intro h
      cases hh : _isValidHorizontalSwipe cfg g with
      | true =>
        exfalso
        rw [getSwipeDirection_of_horizontal cfg g hh] at h
        split at h <;> simp at h
      | false =>
        cases hvv : _isValidVerticalSwipe cfg g with
        | true =>
          refine ⟨fun hc => ?_, hV.1 hvv⟩
          rw [hH.2 hc] at hh
          exact absurd hh (by simp)
        | false =>
          exfalso
          rw [getSwipeDirection_of_neither cfg g hh hvv] at h
          simp at h
    · intro h
      rw [key h]
      split <;> simp
  · intro h
    rw [key h]
    by_cases hdy : g.dy > 0 <;> simp [hdy]

/-- C7, witness of the text: `dx = 2`, `dy = 50`, `vx = 0.05`, `vy = 0.6` with
the default configuration is classified `SWIPE_DOWN`. -/
theorem getSwipeDirection_vertical_iff_witness :
    _getSwipeDirection defaultSwipeConfigLiteral
      { dx := 2, dy := 50, vx := 0.05, vy := 0.6 } = some .SWIPE_DOWN := by
  have h := getSwipeDirection_vertical_iff defaultSwipeConfigLiteral
    { dx := 2, dy := 50, vx := 0.05, vy := 0.6 } 0.3 80 rfl rfl
  exact (h.2 (by norm_num [lt_abs, abs_lt])).1.2 (by norm_num)

/-- C8: for an event with exactly one touch and a gesture state that is not a
click (`|dx| >= 5` or `|dy| >= 5`), `_handleShouldSetPanResponder` returns
`true` exactly when `_getSwipeDirection` yields a direction whose
`detectSwipe*` flag is truthy in the effective configuration. -/
theorem handleShouldSetPanResponder_iff (cfg : ConfigT) (evt : ReactNativeEventT)
    (g : GestureState) (h1 : evt.touchesLength = 1) (hc : |g.dx| ≥ 5 ∨ |g.dy| ≥ 5) :
    _handleShouldSetPanResponder cfg evt g = .bool true ↔
      ∃ d, _getSwipeDirection cfg g = some d ∧ (cfg.detectFlag d).truthy = true := by
  have hclick : gestureIsClick g = false := by
    unfold gestureIsClick
    rcases hc with hc | hc
    · simp [not_lt.2 hc]
    · simp [not_lt.2 hc]
  have hval : _handleShouldSetPanResponder cfg evt g = _validateSwipe cfg g := by
    simp [_handleShouldSetPanResponder, h1, hclick, jsAnd, truthy_bool]
  rw [hval, eq_true_iff_truthy (trueOrFalsy_validateSwipe cfg g)]
  exact truthy_validateSwipe cfg g

/-- C8, witness: one touch, `dx = 10`, `dy = 10`, `vx = 1`, `vy = 1` under the
default configuration is claimed. -/
theorem handleShouldSetPanResponder_iff_witness :
    _handleShouldSetPanResponder defaultSwipeConfigLiteral { touchesLength := 1 }
      { dx := 10, dy := 10, vx := 1, vy := 1 } = .bool true :=
  (handleShouldSetPanResponder_iff defaultSwipeConfigLiteral { touchesLength := 1 }
    { dx := 10, dy := 10, vx := 1, vy := 1 } rfl (Or.inl (by norm_num [le_abs]))).2
    ⟨.SWIPE_RIGHT, by
      rw [getSwipeDirection_of_horizontal]
      · norm_num
      · rw [isValidHorizontalSwipe_iff _ _ 0.3 80 rfl rfl]
        norm_num [lt_abs, abs_lt], rfl⟩

/-- C9: for an event whose number of touches is not 1, whatever the gesture
state and the configuration, `_handleShouldSetPanResponder` returns `false`. -/
theorem handleShouldSetPanResponder_touches_ne_one (cfg : ConfigT) (evt : ReactNativeEventT)
    (g : GestureState) (h : evt.touchesLength ≠ 1) :
    _handleShouldSetPanResponder cfg evt g = .bool false := by
  simp [_handleShouldSetPanResponder, h, jsAnd, truthy_bool]

/-- C9, witness: two touches on a gesture that would otherwise be claimed. -/
theorem handleShouldSetPanResponder_touches_ne_one_witness :
    _handleShouldSetPanResponder defaultSwipeConfigLiteral { touchesLength := 2 }
      { dx := 10, dy := 10, vx := 1, vy := 1 } = .bool false :=
  handleShouldSetPanResponder_touches_ne_one defaultSwipeConfigLiteral { touchesLength := 2 }
    { dx := 10, dy := 10, vx := 1, vy := 1 } (by decide)

/-- C10: for a gesture state with `|dx| < 5` and `|dy| < 5`, whatever the
velocities, the number of touches and the configuration,
`_handleShouldSetPanResponder` returns `false`. -/
theorem handleShouldSetPanResponder_click (cfg : ConfigT) (evt : ReactNativeEventT)
    (g : GestureState) (hx : |g.dx| < 5) (hy : |g.dy| < 5) :
    _handleShouldSetPanResponder cfg evt g = .bool false := by
  have hclick : gestureIsClick g = true := by
    simp [gestureIsClick, hx, hy]
  by_cases h : evt.touchesLength = 1 <;>
    simp [_handleShouldSetPanResponder, h, hclick, jsAnd, truthy_bool]

/-- C10, witness: one touch, `dx = 4`, `dy = -4` and velocities far above the
threshold. -/
theorem handleShouldSetPanResponder_click_witness :
    _handleShouldSetPanResponder defaultSwipeConfigLiteral { touchesLength := 1 }
      { dx := 4, dy := -4, vx := 100, vy := 100 } = .bool false :=
  handleShouldSetPanResponder_click defaultSwipeConfigLiteral { touchesLength := 1 }
    { dx := 4, dy := -4, vx := 100, vy := 100 } (by norm_num [abs_lt]) (by norm_num [abs_lt])

/-! ## Properties of the dispatch -/

theorem triggerSwipeHandlers_some (props : PropsT) (d : SwipeDirectionT) (g : GestureState) :
    _triggerSwipeHandlers props (some d) g =
      (if props.onSwipe then [Call.onSwipe d g] else []) ++
        (if props.specific d then [Call.specific d g] else []) := by
  cases d <;> rfl

theorem triggerSwipeHandlers_none (props : PropsT) (g : GestureState) :
    _triggerSwipeHandlers props none g = [] := rfl

theorem specific_ne_onSwipe (d d' : SwipeDirectionT) (g g' : GestureState) :
    Call.specific d g ≠ Call.onSwipe d' g' := by
  cases d <;> simp [Call.specific]

theorem specific_injective (d d' : SwipeDirectionT) (g g' : GestureState)
    (h : Call.specific d g = Call.specific d' g') : d = d' ∧ g = g' := by
  cases d <;> cases d' <;> simp_all [Call.specific]

/-- C11: for every direction `d` and gesture state `g`, when the generic
`onSwipe` callback and the callback specific to `d` are both registered,
`_triggerSwipeHandlers(d, g)` makes exactly two calls: first `onSwipe(d, g)`,
then the specific callback with `(g)`; each is invoked exactly once. -/
theorem triggerSwipeHandlers_fan_out (props : PropsT) (d : SwipeDirectionT) (g : GestureState)
    (hg : props.onSwipe = true) (hs : props.specific d = true) :
    _triggerSwipeHandlers props (some d) g = [Call.onSwipe d g, Call.specific d g] ∧
    (_triggerSwipeHandlers props (some d) g).count (Call.onSwipe d g) = 1 ∧
    (_triggerSwipeHandlers props (some d) g).count (Call.specific d g) = 1 := by
  have h : _triggerSwipeHandlers props (some d) g = [Call.onSwipe d g, Call.specific d g] := by
    rw [triggerSwipeHandlers_some, hg, hs]
    rfl
  have hne : Call.specific d g ≠ Call.onSwipe d g := specific_ne_onSwipe d d g g
  refine ⟨h, ?_, ?_⟩
  · rw [h]
    simp [List.count_cons, hne]
  · rw [h]
    simp [List.count_cons, hne.symm]

/-- C11, witness of the text: with `onSwipe` and `onSwipeLeft` registered, the
direction `SWIPE_LEFT` gives the calls `onSwipe(SWIPE_LEFT, g)` and then
`onSwipeLeft(g)`. -/
theorem triggerSwipeHandlers_fan_out_witness :
    _triggerSwipeHandlers
        { onSwipe := true, onSwipeUp := false, onSwipeDown := false, onSwipeLeft := true,
          onSwipeRight := false, config := none }
        (some .SWIPE_LEFT) { dx := -20, dy := 2, vx := -0.8, vy := 0.05 } =
      [Call.onSwipe .SWIPE_LEFT { dx := -20, dy := 2, vx := -0.8, vy := 0.05 },
        Call.onSwipeLeft { dx := -20, dy := 2, vx := -0.8, vy := 0.05 }] :=
  (triggerSwipeHandlers_fan_out
    { onSwipe := true, onSwipeUp := false, onSwipeDown := false, onSwipeLeft := true,
      onSwipeRight := false, config := none }
    .SWIPE_LEFT { dx := -20, dy := 2, vx := -0.8, vy := 0.05 } rfl rfl).1

/-- C12: for every direction `d`, gesture state `g` and props,
`_triggerSwipeHandlers(d, g)` invokes the callback specific to `d` exactly once
when it is registered, with the argument `g` and no other, not at all when it
is not registered, and never a callback specific to another direction. -/
theorem triggerSwipeHandlers_specific (props : PropsT) (d : SwipeDirectionT)
    (g : GestureState) :
    (_triggerSwipeHandlers props (some d) g).count (Call.specific d g) =
      (if props.specific d then 1 else 0) ∧
    (∀ g', Call.specific d g' ∈ _triggerSwipeHandlers props (some d) g → g' = g) ∧
    (∀ d' g', d' ≠ d → Call.specific d' g' ∉ _triggerSwipeHandlers props (some d) g) := by
  have hne : Call.specific d g ≠ Call.onSwipe d g := specific_ne_onSwipe d d g g
  rw [triggerSwipeHandlers_some]
  refine ⟨?_, ?_, ?_⟩
  · cases props.onSwipe <;> cases props.specific d <;> simp [List.count_cons, hne.symm]
  · intro g' hmem
    rw [List.mem_append] at hmem
    rcases hmem with hmem | hmem
    · split at hmem
      · rw [List.mem_singleton] at hmem
        exact absurd hmem (specific_ne_onSwipe d d g' g)
      · simp at hmem
    · split at hmem
      · rw [List.mem_singleton] at hmem
        exact (specific_injective d d g' g hmem).2
      · simp at hmem
  · intro d' g' hd hmem
    rw [List.mem_append] at hmem
    rcases hmem with hmem | hmem
    · split at hmem
      · rw [List.mem_singleton] at hmem
        exact absurd hmem (specific_ne_onSwipe d' d g' g)
      · simp at hmem
    · split at hmem
      · rw [List.mem_singleton] at hmem
        exact hd (specific_injective d' d g' g hmem).1
      · simp at hmem

/-- C13: when the classified direction is none, the release handler invokes no
callback at all, whichever callbacks are registered. -/
theorem handlePanResponderEnd_none (props : PropsT) (cfg : ConfigT) (evt : ReactNativeEventT)
    (g : GestureState) (h : _getSwipeDirection cfg g = none) :
    _handlePanResponderEnd props cfg evt g = [] := by
  simp only [_handlePanResponderEnd, h]
  rfl

/-- C13, witness: a gesture at rest under the default configuration, with all
five callbacks registered. -/
theorem handlePanResponderEnd_none_witness :
    _handlePanResponderEnd
        { onSwipe := true, onSwipeUp := true, onSwipeDown := true, onSwipeLeft := true,
          onSwipeRight := true, config := none }
        defaultSwipeConfigLiteral { touchesLength := 1 }
        { dx := 0, dy := 0, vx := 0, vy := 0 } = [] :=
  handlePanResponderEnd_none _ defaultSwipeConfigLiteral _ { dx := 0, dy := 0, vx := 0, vy := 0 }
    (getSwipeDirection_of_neither _ _
      (by
        rw [Bool.eq_false_iff, ne_eq, isValidHorizontalSwipe_iff _ _ 0.3 80 rfl rfl]
        norm_num)
      (by
        rw [Bool.eq_false_iff, ne_eq, isValidVerticalSwipe_iff _ _ 0.3 80 rfl rfl]
        norm_num))

/-! ## Further properties of the classification -/

theorem getSwipeDirection_eq_none_iff (cfg : ConfigT) (g : GestureState) :
    _getSwipeDirection cfg g = none ↔
      _isValidHorizontalSwipe cfg g = false ∧ _isValidVerticalSwipe cfg g = false := by
  unfold _getSwipeDirection
  cases _isValidHorizontalSwipe cfg g <;> cases _isValidVerticalSwipe cfg g <;> simp

theorem isBool_jsAnd {a b : Val} (ha : a.isBool = true) (hb : b.isBool = true) :
    (jsAnd a b).isBool = true := by
  unfold jsAnd
  split <;> assumption

theorem isBool_jsOr {a b : Val} (ha : a.isBool = true) (hb : b.isBool = true) :
    (jsOr a b).isBool = true := by
  unfold jsOr
  split <;> assumption

theorem eq_bool_truthy_of_isBool {v : Val} (h : v.isBool = true) : v = .bool v.truthy := by
  cases v <;> simp [Val.isBool] at h
  rfl

theorem validateSwipe_of_booleanFlags (cfg : ConfigT) (g : GestureState)
    (hb : cfg.booleanFlags = true) :
    _validateSwipe cfg g = .bool (_validateSwipe cfg g).truthy := by
  simp only [ConfigT.booleanFlags, Bool.and_eq_true] at hb
  obtain ⟨⟨⟨hu, hd⟩, hl⟩, hr⟩ := hb
  apply eq_bool_truthy_of_isBool
  unfold _validateSwipe
  exact isBool_jsOr (isBool_jsOr (isBool_jsOr (isBool_jsAnd hu rfl) (isBool_jsAnd hd rfl))
    (isBool_jsAnd hl rfl)) (isBool_jsAnd hr rfl)

/-- C14: `_getSwipeDirection` returns, for every gesture state and
configuration, exactly one of `SWIPE_UP`, `SWIPE_DOWN`, `SWIPE_LEFT`,
`SWIPE_RIGHT` or none; the result is the same under any configuration with the
same two thresholds, whatever its flags; and it is none exactly when neither
the horizontal nor the vertical test holds. -/
theorem getSwipeDirection_total (cfg cfg2 : ConfigT) (g : GestureState) (vt ot : ℚ)
    (hv : cfg.velocityThreshold = .num vt) (ho : cfg.directionalOffsetThreshold = .num ot)
    (hv2 : cfg2.velocityThreshold = .num vt) (ho2 : cfg2.directionalOffsetThreshold = .num ot) :
    (_getSwipeDirection cfg g = none ∨ _getSwipeDirection cfg g = some .SWIPE_UP ∨
      _getSwipeDirection cfg g = some .SWIPE_DOWN ∨
      _getSwipeDirection cfg g = some .SWIPE_LEFT ∨
      _getSwipeDirection cfg g = some .SWIPE_RIGHT) ∧
    _getSwipeDirection cfg2 g = _getSwipeDirection cfg g ∧
    (_getSwipeDirection cfg g = none ↔
      ¬ (|g.vx| > vt ∧ |g.dy| < ot) ∧ ¬ (|g.vy| > vt ∧ |g.dx| < ot)) := by
  refine ⟨?_, ?_, ?_⟩
  · cases h : _getSwipeDirection cfg g with
    | none => exact Or.inl rfl
    | some d => cases d <;> simp
  · simp only [_getSwipeDirection, _isValidHorizontalSwipe, _isValidVerticalSwipe, hv, ho, hv2,
      ho2]
  · rw [getSwipeDirection_eq_none_iff, Bool.eq_false_iff, Bool.eq_false_iff, ne_eq, ne_eq,
      isValidHorizontalSwipe_iff cfg g vt ot hv ho, isValidVerticalSwipe_iff cfg g vt ot hv ho]

/-- C14, witness: the default configuration and the same thresholds with all
flags disabled, on a gesture for which neither test holds. -/
theorem getSwipeDirection_total_witness :
    _getSwipeDirection defaultSwipeConfigLiteral { dx := 100, dy := 100, vx := 1, vy := 1 } =
      none ∧
    _getSwipeDirection
        { velocityThreshold := .num 0.3, directionalOffsetThreshold := .num 80,
          detectSwipeUp := .bool false, detectSwipeDown := .bool false,
          detectSwipeLeft := .bool false, detectSwipeRight := .bool false }
        { dx := 100, dy := 100, vx := 1, vy := 1 } =
      _getSwipeDirection defaultSwipeConfigLiteral { dx := 100, dy := 100, vx := 1, vy := 1 } := by
  have h := getSwipeDirection_total defaultSwipeConfigLiteral
    { velocityThreshold := .num 0.3, directionalOffsetThreshold := .num 80,
      detectSwipeUp := .bool false, detectSwipeDown := .bool false,
      detectSwipeLeft := .bool false, detectSwipeRight := .bool false }
    { dx := 100, dy := 100, vx := 1, vy := 1 } 0.3 80 rfl rfl rfl rfl
  exact ⟨h.2.2.2 (by norm_num [abs_lt]), h.2.1⟩

/-- C15: when both the horizontal and the vertical test hold and the flag of
the horizontal direction chosen by the sign of `dx` is not enabled,
`_validateSwipe` and `_handleShouldSetPanResponder` return a falsy value,
whatever the flags of the vertical directions are; with boolean flags that
value is `false`. -/
theorem validateSwipe_no_fallback (cfg : ConfigT) (evt : ReactNativeEventT) (g : GestureState)
    (vt ot : ℚ)
    (hv : cfg.velocityThreshold = .num vt) (ho : cfg.directionalOffsetThreshold = .num ot)
    (hH : |g.vx| > vt ∧ |g.dy| < ot) (hV : |g.vy| > vt ∧ |g.dx| < ot)
    (hflag : (cfg.detectFlag
      (if g.dx > 0 then SwipeDirectionT.SWIPE_RIGHT else SwipeDirectionT.SWIPE_LEFT)).truthy =
        false) :
    _isValidVerticalSwipe cfg g = true ∧
    (_validateSwipe cfg g).truthy = false ∧
    (_handleShouldSetPanResponder cfg evt g).truthy = false ∧
    (cfg.booleanFlags = true →
      _validateSwipe cfg g = .bool false ∧
        _handleShouldSetPanResponder cfg evt g = .bool false) := by
  have h1 : _isValidHorizontalSwipe cfg g = true :=
    (isValidHorizontalSwipe_iff cfg g vt ot hv ho).2 hH
  have h2 : _isValidVerticalSwipe cfg g = true :=
    (isValidVerticalSwipe_iff cfg g vt ot hv ho).2 hV
  have hd := getSwipeDirection_of_horizontal cfg g h1
  have hval : (_validateSwipe cfg g).truthy = false := by
    rw [Bool.eq_false_iff, ne_eq, truthy_validateSwipe]
    rintro ⟨d, hd2, hf⟩
    rw [hd, Option.some.injEq] at hd2
    rw [hd2, hf] at hflag
    exact absurd hflag (by simp)
  have hhandle : (_handleShouldSetPanResponder cfg evt g).truthy = false := by
    unfold _handleShouldSetPanResponder
    rw [truthy_jsAnd, hval, Bool.and_false]
  refine ⟨h2, hval, hhandle, ?_⟩
  intro hb
  have hvb : _validateSwipe cfg g = .bool false := by
    rw [validateSwipe_of_booleanFlags cfg g hb, hval]
  refine ⟨hvb, ?_⟩
  unfold _handleShouldSetPanResponder
  rw [hvb]
  cases decide (evt.touchesLength = 1) <;> cases gestureIsClick g <;> rfl

/-- C15, witness of the text: `vx = 1`, `vy = 1`, `dx = 10`, `dy = 10` with the
default thresholds, `detectSwipeRight = false` and `detectSwipeDown = true` is
not claimed. -/
theorem validateSwipe_no_fallback_witness :
    _validateSwipe { defaultSwipeConfigLiteral with detectSwipeRight := .bool false }
        { dx := 10, dy := 10, vx := 1, vy := 1 } = .bool false ∧
    _handleShouldSetPanResponder
        { defaultSwipeConfigLiteral with detectSwipeRight := .bool false }
        { touchesLength := 1 } { dx := 10, dy := 10, vx := 1, vy := 1 } = .bool false :=
  (validateSwipe_no_fallback { defaultSwipeConfigLiteral with detectSwipeRight := .bool false }
    { touchesLength := 1 } { dx := 10, dy := 10, vx := 1, vy := 1 } 0.3 80 rfl rfl
    (by norm_num [lt_abs, abs_lt]) (by norm_num [lt_abs, abs_lt])
    (by norm_num [ConfigT.detectFlag, truthy_bool])).2.2.2 rfl

theorem getSwipeDirection_default_diagonal :
    _getSwipeDirection defaultSwipeConfigLiteral { dx := 10, dy := 10, vx := 1, vy := 1 } =
      some .SWIPE_RIGHT := by
  rw [getSwipeDirection_of_horizontal]
  · norm_num
  · rw [isValidHorizontalSwipe_iff _ _ 0.3 80 rfl rfl]
    norm_num [lt_abs, abs_lt]

/-- C16: if `_handleShouldSetPanResponder` returns `true` (or any truthy value)
for a gesture state, then the release handler applied to the same gesture state
under the same configuration classifies a direction, the flag of that direction
is enabled, and every callback it invokes is the generic one with that
direction or the one specific to that direction. -/
theorem claim_release_consistency (props : PropsT) (cfg : ConfigT)
    (evt evt2 : ReactNativeEventT) (g : GestureState)
    (h : (_handleShouldSetPanResponder cfg evt g).truthy = true) :
    ∃ d, _getSwipeDirection cfg g = some d ∧ (cfg.detectFlag d).truthy = true ∧
      _handlePanResponderEnd props cfg evt2 g = _triggerSwipeHandlers props (some d) g ∧
      ∀ c ∈ _handlePanResponderEnd props cfg evt2 g,
        c = Call.onSwipe d g ∨ c = Call.specific d g := by
  unfold _handleShouldSetPanResponder at h
  rw [truthy_jsAnd, Bool.and_eq_true] at h
  obtain ⟨d, hd, hf⟩ := (truthy_validateSwipe cfg g).1 h.2
  have hend : _handlePanResponderEnd props cfg evt2 g =
      _triggerSwipeHandlers props (some d) g := by
    simp only [_handlePanResponderEnd, hd]
  refine ⟨d, hd, hf, hend, ?_⟩
  intro c hc
  rw [hend, triggerSwipeHandlers_some, List.mem_append] at hc
  rcases hc with hc | hc
  · split at hc
    · exact Or.inl (List.mem_singleton.1 hc)
    · simp at hc
  · split at hc
    · exact Or.inr (List.mem_singleton.1 hc)
    · simp at hc

/-- C16, witness: one touch, `dx = 10`, `dy = 10`, `vx = 1`, `vy = 1` under the
default configuration is claimed, and its release invokes only callbacks of an
enabled direction. -/
theorem claim_release_consistency_witness :
    ∃ d, _getSwipeDirection defaultSwipeConfigLiteral
        { dx := 10, dy := 10, vx := 1, vy := 1 } = some d ∧
      (defaultSwipeConfigLiteral.detectFlag d).truthy = true ∧
      _handlePanResponderEnd
          { onSwipe := true, onSwipeUp := true, onSwipeDown := true, onSwipeLeft := true,
            onSwipeRight := true, config := none }
          defaultSwipeConfigLiteral { touchesLength := 0 }
          { dx := 10, dy := 10, vx := 1, vy := 1 } =
        _triggerSwipeHandlers
          { onSwipe := true, onSwipeUp := true, onSwipeDown := true, onSwipeLeft := true,
            onSwipeRight := true, config := none }
          (some d) { dx := 10, dy := 10, vx := 1, vy := 1 } ∧
      ∀ c ∈ _handlePanResponderEnd
          { onSwipe := true, onSwipeUp := true, onSwipeDown := true, onSwipeLeft := true,
            onSwipeRight := true, config := none }
          defaultSwipeConfigLiteral { touchesLength := 0 }
          { dx := 10, dy := 10, vx := 1, vy := 1 },
        c = Call.onSwipe d { dx := 10, dy := 10, vx := 1, vy := 1 } ∨
          c = Call.specific d { dx := 10, dy := 10, vx := 1, vy := 1 } :=
  claim_release_consistency _ defaultSwipeConfigLiteral { touchesLength := 1 }
    { touchesLength := 0 } { dx := 10, dy := 10, vx := 1, vy := 1 }
    (by
      have hclick : gestureIsClick { dx := 10, dy := 10, vx := 1, vy := 1 } = false := by
        norm_num [gestureIsClick, abs_lt]
      simp only [_handleShouldSetPanResponder, _validateSwipe,
        getSwipeDirection_default_diagonal, hclick]
      rfl)

/-- C17: negating `vx`, or `vy`, or both, leaves the result of
`_getSwipeDirection` unchanged, for every gesture state and configuration. -/
theorem getSwipeDirection_neg_velocity (cfg : ConfigT) (g : GestureState) :
    _getSwipeDirection cfg { g with vx := -g.vx } = _getSwipeDirection cfg g ∧
    _getSwipeDirection cfg { g with vy := -g.vy } = _getSwipeDirection cfg g ∧
    _getSwipeDirection cfg { g with vx := -g.vx, vy := -g.vy } = _getSwipeDirection cfg g := by
  simp [_getSwipeDirection, _isValidHorizontalSwipe, _isValidVerticalSwipe, isValidSwipe,
    abs_neg]

/-- C18: if `_getSwipeDirection` returns a direction under the thresholds
`(v, o)`, it returns a direction under every `(v2, o2)` with `v2 <= v` and
`o2 >= o`; and if the result under `(v, o)` is horizontal, the result under
`(v2, o2)` is the same horizontal direction. -/
theorem getSwipeDirection_monotone (cfg cfg2 : ConfigT) (g : GestureState) (v o v2 o2 : ℚ)
    (hv : cfg.velocityThreshold = .num v) (ho : cfg.directionalOffsetThreshold = .num o)
    (hv2 : cfg2.velocityThreshold = .num v2) (ho2 : cfg2.directionalOffsetThreshold = .num o2)
    (hle : v2 ≤ v) (hge : o2 ≥ o) :
    (_getSwipeDirection cfg g ≠ none → _getSwipeDirection cfg2 g ≠ none) ∧
    (_getSwipeDirection cfg g = some .SWIPE_LEFT →
      _getSwipeDirection cfg2 g = some .SWIPE_LEFT) ∧
    (_getSwipeDirection cfg g = some .SWIPE_RIGHT →
      _getSwipeDirection cfg2 g = some .SWIPE_RIGHT) := by
  have hH := isValidHorizontalSwipe_iff cfg g v o hv ho
  have hV := isValidVerticalSwipe_iff cfg g v o hv ho
  have hH2 := isValidHorizontalSwipe_iff cfg2 g v2 o2 hv2 ho2
  have hV2 := isValidVerticalSwipe_iff cfg2 g v2 o2 hv2 ho2
  have monoH : _isValidHorizontalSwipe cfg g = true → _isValidHorizontalSwipe cfg2 g = true :=
    fun h => hH2.2 ⟨lt_of_le_of_lt hle (hH.1 h).1, lt_of_lt_of_le (hH.1 h).2 hge⟩
  have monoV : _isValidVerticalSwipe cfg g = true → _isValidVerticalSwipe cfg2 g = true :=
    fun h => hV2.2 ⟨lt_of_le_of_lt hle (hV.1 h).1, lt_of_lt_of_le (hV.1 h).2 hge⟩
  have horiz : ∀ d, (d = SwipeDirectionT.SWIPE_LEFT ∨ d = SwipeDirectionT.SWIPE_RIGHT) →
      _getSwipeDirection cfg g = some d → _getSwipeDirection cfg2 g = some d := by
    intro d hd h
    cases hh : _isValidHorizontalSwipe cfg g with
    | true =>
      rw [getSwipeDirection_of_horizontal cfg g hh] at h
      rw [getSwipeDirection_of_horizontal cfg2 g (monoH hh)]
      exact h
    | false =>
      exfalso
      cases hvv : _isValidVerticalSwipe cfg g with
      | true =>
        rw [getSwipeDirection_of_vertical cfg g hh hvv] at h
        rcases hd with hd | hd <;> subst hd <;> split at h <;> simp at h
      | false =>
        rw [getSwipeDirection_of_neither cfg g hh hvv] at h
        simp at h
  refine ⟨?_, horiz _ (Or.inl rfl), horiz _ (Or.inr rfl)⟩
  intro hne hnone
  rw [getSwipeDirection_eq_none_iff] at hnone
  apply hne
  rw [getSwipeDirection_eq_none_iff]
  constructor
  · cases hh : _isValidHorizontalSwipe cfg g with
    | false => rfl
    | true =>
      rw [monoH hh] at hnone
      exact absurd hnone.1 (by simp)
  · cases hvv : _isValidVerticalSwipe cfg g with
    | false => rfl
    | true =>
      rw [monoV hvv] at hnone
      exact absurd hnone.2 (by simp)

/-- C18, witness: `dx = -20`, `dy = 2`, `vx = -0.8`, `vy = 0.05` is `SWIPE_LEFT`
under the thresholds `(0.3, 80)` and stays `SWIPE_LEFT` under `(0.1, 100)`. -/
theorem getSwipeDirection_monotone_witness :
    _getSwipeDirection
        { defaultSwipeConfigLiteral with
          velocityThreshold := .num 0.1, directionalOffsetThreshold := .num 100 }
        { dx := -20, dy := 2, vx := -0.8, vy := 0.05 } = some .SWIPE_LEFT :=
  (getSwipeDirection_monotone defaultSwipeConfigLiteral
    { defaultSwipeConfigLiteral with
      velocityThreshold := .num 0.1, directionalOffsetThreshold := .num 100 }
    { dx := -20, dy := 2, vx := -0.8, vy := 0.05 } 0.3 80 0.1 100 rfl rfl rfl rfl
    (by norm_num) (by norm_num)).2.1
    (by
      rw [getSwipeDirection_of_horizontal]
      · norm_num
      · rw [isValidHorizontalSwipe_iff _ _ 0.3 80 rfl rfl]
        norm_num [lt_abs, abs_lt])

/-! ## Idempotence of the resolution -/

theorem assignProperty_idem (t : Val) (s : Option Val) :
    assignProperty (assignProperty t s) s = assignProperty t s := by
  cases s <;> rfl

theorem assignFrom_idem (t : ConfigT) (s : ConfigOverrides) :
    (t.assignFrom s).assignFrom s = t.assignFrom s := by
  simp [ConfigT.assignFrom, assignProperty_idem]

theorem objectAssign_idem (h : Heap) (r : Ref) (o : Option ConfigOverrides) :
    Object.assign (Object.assign h r o).1 r o = Object.assign h r o := by
  cases o with
  | none => rfl
  | some s =>
    cases ht : h r with
    | none => simp [Object.assign, ht]
    | some t => simp [Object.assign, ht, assignFrom_idem]

/-- C19: for every override map and every prior state of the heap, and so of
the defaults, resolving the same overrides a second time changes nothing: the
heap, the component and its effective configuration are those after the first
resolution, whether the first resolution is the constructor or
`componentWillReceiveProps`. -/
theorem resolve_idempotent (h : Heap) (self : GestureRecognizer) (props : PropsT) :
    GestureRecognizer.componentWillReceiveProps
        (GestureRecognizer.componentWillReceiveProps h self props).1
        (GestureRecognizer.componentWillReceiveProps h self props).2 props =
      GestureRecognizer.componentWillReceiveProps h self props ∧
    GestureRecognizer.componentWillReceiveProps
        (GestureRecognizer.constructor h props).1
        (GestureRecognizer.constructor h props).2 props =
      GestureRecognizer.constructor h props ∧
    resolveThenResolve h props.config props.config =
      (GestureRecognizer.constructor h (PropsT.ofConfig props.config)).2.effectiveConfig
        (GestureRecognizer.constructor h (PropsT.ofConfig props.config)).1 := by
  have key := objectAssign_idem h defaultSwipeConfig props.config
  refine ⟨?_, ?_, ?_⟩
  · simp only [GestureRecognizer.componentWillReceiveProps, key]
  · simp only [GestureRecognizer.componentWillReceiveProps, GestureRecognizer.constructor, key]
  · simp only [resolveThenResolve, GestureRecognizer.componentWillReceiveProps,
      GestureRecognizer.constructor, PropsT.ofConfig, key]

end SwipeGestures
